import Mathlib

/-!
Verification of the budget-allocation enrichment logic of the Expense-Tracker
frontend (`src/frontend/src/pages/Expenses.tsx`) and the password validation
utility (`validatePassword`).

Numbers of the JavaScript source are modelled as rationals; the
`by_category` record of `ExpenseStats` is modelled as an association list.
-/

namespace ExpenseTracker

/-- Priority tier of a category allocation, from the
`'high' | 'medium' | 'low'` union type of `CategoryAllocation`. -/
inductive Priority where
  | low
  | medium
  | high
deriving DecidableEq, Repr

/-- Rank of a priority tier under the order low < medium < high. -/
def Priority.rank : Priority → Nat
  | .low => 0
  | .medium => 1
  | .high => 2

/-- The `CategoryAllocation` interface of `Expenses.tsx`.  The optional
fields `spent`, `remaining`, `priority` are absent on the raw server
response and attached by the enrichment. -/
structure CategoryAllocation where
  category : String
  amount : ℚ
  percentage : ℚ
  reason : String
  spent : Option ℚ
  remaining : Option ℚ
  priority : Option Priority
deriving DecidableEq, Repr

/-- The `BudgetResult` interface of `Expenses.tsx`. -/
structure BudgetResult where
  budget_amount : ℚ
  period : String
  allocations : List CategoryAllocation
deriving DecidableEq, Repr

/-- The `ExpenseStats` interface of `expenseApi.ts`; `by_category` is the
category-to-spent record. -/
structure ExpenseStats where
  today : ℚ
  week : ℚ
  month : ℚ
  largest : ℚ
  since_budget : ℚ
  by_category : List (String × ℚ)
deriving DecidableEq, Repr

/-- Spent amount for a category, from
`currentStats.by_category[alloc.category] || 0`: the record value when the
category is present, `0` when absent. -/
def categorySpent (by_category : List (String × ℚ)) (category : String) : ℚ :=
  (by_category.lookup category).getD 0

/-- The priority expression of the enrichment:
`alloc.percentage > 20 ? 'high' : alloc.percentage > 10 ? 'medium' : 'low'`. -/
def priorityFor (percentage : ℚ) : Priority :=
  if percentage > 20 then .high
  else if percentage > 10 then .medium
  else .low

/-- The enrichment of `loadBudgetData` (Expenses.tsx lines 135-140):
`spent` from the stats record, `remaining = Math.max(0, alloc.amount - spent)`,
`priority` from the percentage thresholds, spread onto the allocation. -/
def enrichLoad (allocations : List CategoryAllocation)
    (by_category : List (String × ℚ)) : List CategoryAllocation :=
  allocations.map fun alloc =>
    let spent := categorySpent by_category alloc.category
    let remaining := max 0 (alloc.amount - spent)
    let priority := priorityFor alloc.percentage
    { alloc with spent := some spent, remaining := some remaining,
                 priority := some priority }

/-- The enrichment of `handleSetBudget` (Expenses.tsx lines 193-198):
`spent` from the stats record, `remaining = Math.max(0, alloc.amount - spent)`,
`priority` from the percentage thresholds, spread onto the allocation. -/
def enrichSet (allocations : List CategoryAllocation)
    (by_category : List (String × ℚ)) : List CategoryAllocation :=
  allocations.map fun alloc =>
    let spent := categorySpent by_category alloc.category
    let remaining := max 0 (alloc.amount - spent)
    let priority := priorityFor alloc.percentage
    { alloc with spent := some spent, remaining := some remaining,
                 priority := some priority }

end ExpenseTracker

namespace ExpenseTracker

/-- Claim C3: the allocation enrichment computed inside `loadBudgetData` and
the one computed inside `handleSetBudget` (which covers both the set-budget
and add-money paths) are equal as functions of the allocation list and the
`by_category` spent mapping. -/
theorem enrich_load_eq_enrich_set : enrichLoad = enrichSet := rfl

/-- Claim C1: for every allocation list and category-to-spent mapping, the
enrichment gives each allocation `spent` equal to the mapping's value for
its category (`0` when absent) and `remaining = max 0 (amount - spent)`. -/
theorem enrich_spent_remaining (allocations : List CategoryAllocation)
    (by_category : List (String × ℚ)) (i : Nat) (a : CategoryAllocation)
    (h : allocations[i]? = some a) :
    ∃ e, (enrichLoad allocations by_category)[i]? = some e ∧
      (∀ v, by_category.lookup a.category = some v → e.spent = some v) ∧
      (by_category.lookup a.category = none → e.spent = some 0) ∧
      e.remaining =
        some (max 0 (a.amount - categorySpent by_category a.category)) := by
  have hmap : (enrichLoad allocations by_category)[i]? =
      some { a with
        spent := some (categorySpent by_category a.category),
        remaining :=
          some (max 0 (a.amount - categorySpent by_category a.category)),
        priority := some (priorityFor a.percentage) } := by
    simp [enrichLoad, h]
  refine ⟨_, hmap, ?_, ?_, rfl⟩
  · intro v hv
    simp [categorySpent, hv]
  · intro hv
    simp [categorySpent, hv]

/-- Witness for C1 at a concrete allocation list and mapping. -/
theorem enrich_spent_remaining_witness :
    ∃ e, (enrichLoad
        [⟨"Food", 100, 25, "r", none, none, none⟩]
        [("Food", 30)])[0]? = some e ∧
      (∀ v, ([("Food", (30 : ℚ))].lookup "Food") = some v → e.spent = some v) ∧
      (([("Food", (30 : ℚ))].lookup "Food") = none → e.spent = some 0) ∧
      e.remaining = some (max 0 (100 - categorySpent [("Food", 30)] "Food")) :=
  enrich_spent_remaining [⟨"Food", 100, 25, "r", none, none, none⟩]
    [("Food", 30)] 0 ⟨"Food", 100, 25, "r", none, none, none⟩ rfl

end ExpenseTracker

namespace ExpenseTracker

theorem priorityFor_eq_high_iff (p : ℚ) :
    priorityFor p = Priority.high ↔ 20 < p := by
  unfold priorityFor
  split_ifs with h1 h2 <;> simp [h1]

theorem priorityFor_eq_medium_iff (p : ℚ) :
    priorityFor p = Priority.medium ↔ 10 < p ∧ p ≤ 20 := by
  unfold priorityFor
  split_ifs with h1 h2
  · simp [not_le.mpr h1]
  · simp [h2, le_of_not_lt h1]
  · simp [h2]

theorem priorityFor_eq_low_iff (p : ℚ) :
    priorityFor p = Priority.low ↔ p ≤ 10 := by
  unfold priorityFor
  split_ifs with h1 h2
  · have h10 : (10 : ℚ) < p := lt_trans (by norm_num) h1
    simp [not_le.mpr h10]
  · simp [not_le.mpr h2]
  · simp [le_of_not_lt h2]

/-- Claim C2: the enrichment assigns priority high exactly when
`percentage > 20`, medium exactly when `10 < percentage ≤ 20`, and low
exactly otherwise (`percentage ≤ 10`). -/
theorem enrich_priority_thresholds (allocations : List CategoryAllocation)
    (by_category : List (String × ℚ)) (i : Nat) (a : CategoryAllocation)
    (h : allocations[i]? = some a) :
    ∃ e, (enrichLoad allocations by_category)[i]? = some e ∧
      (e.priority = some Priority.high ↔ 20 < a.percentage) ∧
      (e.priority = some Priority.medium ↔
        10 < a.percentage ∧ a.percentage ≤ 20) ∧
      (e.priority = some Priority.low ↔ a.percentage ≤ 10) := by
  have hmap : (enrichLoad allocations by_category)[i]? =
      some { a with
        spent := some (categorySpent by_category a.category),
        remaining :=
          some (max 0 (a.amount - categorySpent by_category a.category)),
        priority := some (priorityFor a.percentage) } := by
    simp [enrichLoad, h]
  refine ⟨_, hmap, ?_, ?_, ?_⟩ <;> simp only [Option.some.injEq]
  · exact priorityFor_eq_high_iff a.percentage
  · exact priorityFor_eq_medium_iff a.percentage
  · exact priorityFor_eq_low_iff a.percentage

/-- Witness for C2 at a concrete allocation list. -/
theorem enrich_priority_thresholds_witness :
    ∃ e, (enrichLoad [⟨"Food", 100, 15, "r", none, none, none⟩]
        [("Food", (30 : ℚ))])[0]? = some e ∧
      (e.priority = some Priority.high ↔ (20 : ℚ) < 15) ∧
      (e.priority = some Priority.medium ↔
        (10 : ℚ) < 15 ∧ (15 : ℚ) ≤ 20) ∧
      (e.priority = some Priority.low ↔ (15 : ℚ) ≤ 10) :=
  enrich_priority_thresholds [⟨"Food", 100, 15, "r", none, none, none⟩]
    [("Food", 30)] 0 ⟨"Food", 100, 15, "r", none, none, none⟩ rfl

/-- Claim C4: priority is monotonic in percentage under the order
low < medium < high. -/
theorem priorityFor_monotone (p q : ℚ) (h : p ≤ q) :
    (priorityFor p).rank ≤ (priorityFor q).rank := by
  unfold priorityFor
  split_ifs <;> simp_all [Priority.rank] <;> linarith

/-- Witness for C4 at concrete percentages. -/
theorem priorityFor_monotone_witness :
    (5 : ℚ) ≤ 15 ∧ (priorityFor 5).rank ≤ (priorityFor 15).rank :=
  ⟨by norm_num, priorityFor_monotone 5 15 (by norm_num)⟩

/-- Claim C8: the enrichment preserves length and order of the input list
and leaves `category`, `amount`, `percentage`, `reason` unchanged. -/
theorem enrich_frame (allocations : List CategoryAllocation)
    (by_category : List (String × ℚ)) (i : Nat) (a : CategoryAllocation)
    (h : allocations[i]? = some a) :
    (enrichLoad allocations by_category).length = allocations.length ∧
    ∃ e, (enrichLoad allocations by_category)[i]? = some e ∧
      e.category = a.category ∧ e.amount = a.amount ∧
      e.percentage = a.percentage ∧ e.reason = a.reason := by
  have hmap : (enrichLoad allocations by_category)[i]? =
      some { a with
        spent := some (categorySpent by_category a.category),
        remaining :=
          some (max 0 (a.amount - categorySpent by_category a.category)),
        priority := some (priorityFor a.percentage) } := by
    simp [enrichLoad, h]
  exact ⟨by simp [enrichLoad], _, hmap, rfl, rfl, rfl, rfl⟩

/-- Witness for C8 at a concrete allocation list. -/
theorem enrich_frame_witness :
    (enrichLoad [⟨"Food", 100, 15, "r", none, none, none⟩]
        [("Food", (30 : ℚ))]).length = 1 ∧
    ∃ e, (enrichLoad [⟨"Food", 100, 15, "r", none, none, none⟩]
        [("Food", (30 : ℚ))])[0]? = some e ∧
      e.category = "Food" ∧ e.amount = 100 ∧
      e.percentage = 15 ∧ e.reason = "r" :=
  enrich_frame [⟨"Food", 100, 15, "r", none, none, none⟩]
    [("Food", 30)] 0 ⟨"Food", 100, 15, "r", none, none, none⟩ rfl

end ExpenseTracker

namespace ExpenseTracker

/-- Alert state of an allocation card in the allocations grid. -/
inductive AlertState where
  | normal
  | warning
  | danger
deriving DecidableEq, Repr

/-- The `spentPercentage` of the allocations grid (Expenses.tsx line 704):
`((allocation.spent || 0) / allocation.amount) * 100`. -/
def spentPercentage (a : CategoryAllocation) : ℚ :=
  a.spent.getD 0 / a.amount * 100

/-- Alert state of an allocation card, from
`isWarning = spentPercentage >= 80 && spentPercentage < 100`,
`isDanger = spentPercentage >= 100` (Expenses.tsx lines 705-706) and the
`isDanger ? danger : isWarning ? warning : normal` rendering. -/
def alertState (a : CategoryAllocation) : AlertState :=
  if 100 ≤ spentPercentage a then .danger
  else if 80 ≤ spentPercentage a ∧ spentPercentage a < 100 then .warning
  else .normal

/-- Claim C5: a card's alert state is danger exactly when
`spentPercentage ≥ 100`, warning exactly when `80 ≤ spentPercentage < 100`,
and normal exactly otherwise (`spentPercentage < 80`). -/
theorem alertState_thresholds (a : CategoryAllocation) :
    (alertState a = AlertState.danger ↔ 100 ≤ spentPercentage a) ∧
    (alertState a = AlertState.warning ↔
      80 ≤ spentPercentage a ∧ spentPercentage a < 100) ∧
    (alertState a = AlertState.normal ↔ spentPercentage a < 80) := by
  unfold alertState
  split_ifs with h1 h2
  · have h80 : (80 : ℚ) ≤ spentPercentage a := le_trans (by norm_num) h1
    exact ⟨by simp [h1], by simp [not_lt.mpr h1], by simp [not_lt.mpr h80]⟩
  · exact ⟨by simp [h1], by simp [h2.1, h2.2], by simp [not_lt.mpr h2.1]⟩
  · have hlt : spentPercentage a < 100 := not_le.mp h1
    have h80 : spentPercentage a < 80 := by
      by_contra hc
      push_neg at hc
      exact h2 ⟨hc, hlt⟩
    exact ⟨by simp [h1], by simp [h2], by simp [h80]⟩

end ExpenseTracker

namespace ExpenseTracker

/-- The `budgetMode` state of the Expenses page: `'set' | 'add'`. -/
inductive BudgetMode where
  | set
  | add
deriving DecidableEq, Repr

/-- The final budget amount computed in `handleSetBudget`
(Expenses.tsx lines 163-168): the entered amount, or, in add mode with a
budget already loaded, the previous `budget_amount` plus the entered
amount. -/
def finalBudgetAmount (mode : BudgetMode) (budgetData : Option BudgetResult)
    (entered : ℚ) : ℚ :=
  match mode, budgetData with
  | BudgetMode.add, some prev => prev.budget_amount + entered
  | _, _ => entered

/-- The component state touched by `handleSetBudget`. -/
structure PageState where
  budgetData : Option BudgetResult
  stats : Option ExpenseStats
  showBudgetModal : Bool
  budgetMode : BudgetMode
deriving DecidableEq, Repr

/-- Responses of the network calls `handleSetBudget` wraps, as functions of
the request data; a thrown error is an `Except.error` carrying its
message. -/
structure NetworkEnv where
  setBudgetResp : ℚ → Except String Unit
  distributeResp : ℚ → Except String BudgetResult
  statsResp : Except String ExpenseStats

/-- Message of the catch block of `handleSetBudget`
(Expenses.tsx line 212): the error's message, falling back to a fixed
string. -/
def catchMessage (e : String) : String :=
  if e = "" then "Failed to set budget. Please try again." else e

/-- Result of one run of `handleSetBudget`: the new component state, the
alert shown (if any), and the arguments of each network call made. -/
structure SetBudgetRun where
  state : PageState
  alert : Option String
  setBudgetCalls : List ℚ
  distributeCalls : List ℚ
  statsCalls : Nat
deriving Repr

/-- The `handleSetBudget` handler (Expenses.tsx lines 153-217): validate the entered
amount, compute the final budget amount, call `setBudget`,
`distributeBudget` and `getExpenseStats` in order, enrich the new
allocations, and store the new budget data and stats; any thrown error is
caught and surfaced as an alert, leaving the state unchanged. -/
def handleSetBudget (st : PageState) (entered : ℚ) (env : NetworkEnv) :
    SetBudgetRun :=
  if entered ≤ 0 then
    ⟨st, some "Please enter a valid budget amount", [], [], 0⟩
  else
    let final := finalBudgetAmount st.budgetMode st.budgetData entered
    match env.setBudgetResp final with
    | Except.error e => ⟨st, some (catchMessage e), [final], [], 0⟩
    | Except.ok _ =>
      match env.distributeResp final with
      | Except.error e => ⟨st, some (catchMessage e), [final], [final], 0⟩
      | Except.ok result =>
        match env.statsResp with
        | Except.error e => ⟨st, some (catchMessage e), [final], [final], 1⟩
        | Except.ok currentStats =>
          let enrichedAllocations :=
            enrichSet result.allocations currentStats.by_category
          ⟨{ budgetData := some ⟨final, result.period, enrichedAllocations⟩,
             stats := some currentStats,
             showBudgetModal := false,
             budgetMode := BudgetMode.set },
           none, [final], [final], 1⟩

end ExpenseTracker

namespace ExpenseTracker

/-- Claim C6: in add mode with a budget loaded the final amount is the
previous `budget_amount` plus the entered amount, in set mode it is the
entered amount alone, and on success that same final amount is the one sent
to `setBudget`, the one sent to `distributeBudget`, and the one stored as
the new `budgetData.budget_amount`. -/
theorem handleSetBudget_amount_consistent (st : PageState)
    (entered fin : ℚ) (env : NetworkEnv) (result : BudgetResult)
    (currentStats : ExpenseStats) (hpos : 0 < entered)
    (hfin : fin = finalBudgetAmount st.budgetMode st.budgetData entered)
    (hset : env.setBudgetResp fin = Except.ok ())
    (hdist : env.distributeResp fin = Except.ok result)
    (hstats : env.statsResp = Except.ok currentStats) :
    (handleSetBudget st entered env).setBudgetCalls = [fin] ∧
    (handleSetBudget st entered env).distributeCalls = [fin] ∧
    (handleSetBudget st entered env).state.budgetData =
      some ⟨fin, result.period,
        enrichSet result.allocations currentStats.by_category⟩ ∧
    (∀ prev, st.budgetMode = BudgetMode.add → st.budgetData = some prev →
      fin = prev.budget_amount + entered) ∧
    (st.budgetMode = BudgetMode.set → fin = entered) := by
  subst hfin
  have hg : ¬ entered ≤ 0 := not_le.mpr hpos
  refine ⟨?_, ?_, ?_, ?_, ?_⟩
  · simp [handleSetBudget, hg, hset, hdist, hstats]
  · simp [handleSetBudget, hg, hset, hdist, hstats]
  · simp [handleSetBudget, hg, hset, hdist, hstats]
  · intro prev hm hb
    simp [finalBudgetAmount, hm, hb]
  · intro hm
    cases hb : st.budgetData
    · simp [finalBudgetAmount, hm, hb]
    · simp [finalBudgetAmount, hm, hb]

/-- Witness for C6: adding 50 to a loaded budget of 100 persists,
redistributes and displays 150. -/
theorem handleSetBudget_amount_consistent_witness :
    (handleSetBudget ⟨some ⟨100, "m", []⟩, none, true, BudgetMode.add⟩ 50
      ⟨fun _ => Except.ok (), fun q => Except.ok ⟨q, "m", []⟩,
        Except.ok ⟨0, 0, 0, 0, 0, []⟩⟩).setBudgetCalls = [150] ∧
    (handleSetBudget ⟨some ⟨100, "m", []⟩, none, true, BudgetMode.add⟩ 50
      ⟨fun _ => Except.ok (), fun q => Except.ok ⟨q, "m", []⟩,
        Except.ok ⟨0, 0, 0, 0, 0, []⟩⟩).distributeCalls = [150] ∧
    (handleSetBudget ⟨some ⟨100, "m", []⟩, none, true, BudgetMode.add⟩ 50
      ⟨fun _ => Except.ok (), fun q => Except.ok ⟨q, "m", []⟩,
        Except.ok ⟨0, 0, 0, 0, 0, []⟩⟩).state.budgetData =
      some ⟨150, "m", enrichSet [] []⟩ ∧
    (∀ prev, BudgetMode.add = BudgetMode.add →
      some (⟨100, "m", []⟩ : BudgetResult) = some prev →
      (150 : ℚ) = prev.budget_amount + 50) ∧
    (BudgetMode.add = BudgetMode.set → (150 : ℚ) = 50) :=
  handleSetBudget_amount_consistent
    ⟨some ⟨100, "m", []⟩, none, true, BudgetMode.add⟩ 50 150
    ⟨fun _ => Except.ok (), fun q => Except.ok ⟨q, "m", []⟩,
      Except.ok ⟨0, 0, 0, 0, 0, []⟩⟩
    ⟨150, "m", []⟩ ⟨0, 0, 0, 0, 0, []⟩ (by norm_num)
    (by norm_num [finalBudgetAmount]) rfl (by norm_num [finalBudgetAmount])
    rfl

/-- Claim C7: when any of the wrapped network calls throws, the error is
caught and surfaced as an alert, nothing is retried (each call is made at
most once), and `budgetData` and `stats` are unchanged. -/
theorem handleSetBudget_error_atomic (st : PageState) (entered : ℚ)
    (env : NetworkEnv)
    (h : (∃ e, env.setBudgetResp
            (finalBudgetAmount st.budgetMode st.budgetData entered) =
          Except.error e) ∨
         (∃ e, env.distributeResp
            (finalBudgetAmount st.budgetMode st.budgetData entered) =
          Except.error e) ∨
         (∃ e, env.statsResp = Except.error e)) :
    (handleSetBudget st entered env).state.budgetData = st.budgetData ∧
    (handleSetBudget st entered env).state.stats = st.stats ∧
    (handleSetBudget st entered env).alert.isSome = true ∧
    (handleSetBudget st entered env).setBudgetCalls.length ≤ 1 ∧
    (handleSetBudget st entered env).distributeCalls.length ≤ 1 ∧
    (handleSetBudget st entered env).statsCalls ≤ 1 := by
  by_cases hg : entered ≤ 0
  · simp [handleSetBudget, hg]
  · rcases hs : env.setBudgetResp
        (finalBudgetAmount st.budgetMode st.budgetData entered) with e | u
    · simp [handleSetBudget, hg, hs]
    · rcases hd : env.distributeResp
          (finalBudgetAmount st.budgetMode st.budgetData entered)
        with e | result
      · simp [handleSetBudget, hg, hs, hd]
      · rcases hst : env.statsResp with e | currentStats
        · simp [handleSetBudget, hg, hs, hd, hst]
        · exfalso
          rcases h with ⟨e, he⟩ | ⟨e, he⟩ | ⟨e, he⟩
          · rw [he] at hs
            exact Except.noConfusion hs
          · rw [he] at hd
            exact Except.noConfusion hd
          · rw [he] at hst
            exact Except.noConfusion hst

/-- Witness for C7: a failing `setBudget` call leaves the budget data and
stats untouched and surfaces an alert. -/
theorem handleSetBudget_error_atomic_witness :
    (handleSetBudget ⟨some ⟨100, "m", []⟩, none, true, BudgetMode.set⟩ 50
      ⟨fun _ => Except.error "network down", fun q => Except.ok ⟨q, "m", []⟩,
        Except.ok ⟨0, 0, 0, 0, 0, []⟩⟩).state.budgetData =
      some ⟨100, "m", []⟩ ∧
    (handleSetBudget ⟨some ⟨100, "m", []⟩, none, true, BudgetMode.set⟩ 50
      ⟨fun _ => Except.error "network down", fun q => Except.ok ⟨q, "m", []⟩,
        Except.ok ⟨0, 0, 0, 0, 0, []⟩⟩).state.stats = none ∧
    (handleSetBudget ⟨some ⟨100, "m", []⟩, none, true, BudgetMode.set⟩ 50
      ⟨fun _ => Except.error "network down", fun q => Except.ok ⟨q, "m", []⟩,
        Except.ok ⟨0, 0, 0, 0, 0, []⟩⟩).alert.isSome = true ∧
    (handleSetBudget ⟨some ⟨100, "m", []⟩, none, true, BudgetMode.set⟩ 50
      ⟨fun _ => Except.error "network down", fun q => Except.ok ⟨q, "m", []⟩,
        Except.ok ⟨0, 0, 0, 0, 0, []⟩⟩).setBudgetCalls.length ≤ 1 ∧
    (handleSetBudget ⟨some ⟨100, "m", []⟩, none, true, BudgetMode.set⟩ 50
      ⟨fun _ => Except.error "network down", fun q => Except.ok ⟨q, "m", []⟩,
        Except.ok ⟨0, 0, 0, 0, 0, []⟩⟩).distributeCalls.length ≤ 1 ∧
    (handleSetBudget ⟨some ⟨100, "m", []⟩, none, true, BudgetMode.set⟩ 50
      ⟨fun _ => Except.error "network down", fun q => Except.ok ⟨q, "m", []⟩,
        Except.ok ⟨0, 0, 0, 0, 0, []⟩⟩).statsCalls ≤ 1 :=
  handleSetBudget_error_atomic
    ⟨some ⟨100, "m", []⟩, none, true, BudgetMode.set⟩ 50
    ⟨fun _ => Except.error "network down", fun q => Except.ok ⟨q, "m", []⟩,
      Except.ok ⟨0, 0, 0, 0, 0, []⟩⟩
    (Or.inl ⟨"network down", rfl⟩)

end ExpenseTracker

namespace ExpenseTracker

/-- The budget data stored by `loadBudgetData` on success
(Expenses.tsx lines 142-145): the distribution result with its allocations
replaced by their enrichment. -/
def loadBudgetStore (result : BudgetResult) (currentStats : ExpenseStats) :
    BudgetResult :=
  { result with
    allocations := enrichLoad result.allocations currentStats.by_category }

/-- States of the `budgetData` component state reachable from the initial
null state by the operations that set it: a successful initial load, and
`handleSetBudget` runs (both modes, including the validation guard and the
error paths, which leave the state unchanged). -/
inductive ReachableBudgetData : Option BudgetResult → Prop
  | init : ReachableBudgetData none
  | load (s : Option BudgetResult) (result : BudgetResult)
      (currentStats : ExpenseStats) : ReachableBudgetData s →
      ReachableBudgetData (some (loadBudgetStore result currentStats))
  | setBudget (st : PageState) (entered : ℚ) (env : NetworkEnv) :
      ReachableBudgetData st.budgetData →
      ReachableBudgetData (handleSetBudget st entered env).state.budgetData

theorem remaining_nonneg_of_mem_enrichLoad
    (allocations : List CategoryAllocation)
    (by_category : List (String × ℚ)) (e : CategoryAllocation)
    (he : e ∈ enrichLoad allocations by_category) (r : ℚ)
    (hr : e.remaining = some r) : 0 ≤ r := by
  simp only [enrichLoad, List.mem_map] at he
  obtain ⟨a, _, rfl⟩ := he
  simp only [Option.some.injEq] at hr
  rw [← hr]
  exact le_max_left 0 _

theorem remaining_nonneg_of_mem_enrichSet
    (allocations : List CategoryAllocation)
    (by_category : List (String × ℚ)) (e : CategoryAllocation)
    (he : e ∈ enrichSet allocations by_category) (r : ℚ)
    (hr : e.remaining = some r) : 0 ≤ r :=
  remaining_nonneg_of_mem_enrichLoad allocations by_category e he r hr

/-- Claim C9: in every `budgetData` state reachable by initial load,
set-budget and add-money operations, every stored allocation's `remaining`
is nonnegative. -/
theorem reachable_remaining_nonneg (s : Option BudgetResult)
    (hs : ReachableBudgetData s) :
    ∀ bd, s = some bd → ∀ a ∈ bd.allocations,
      ∀ r, a.remaining = some r → 0 ≤ r := by
  induction hs with
  | init =>
      intro bd hbd
      cases hbd
  | load s result currentStats hprev ih =>
      intro bd hbd a ha r hr
      rw [Option.some.injEq] at hbd
      subst hbd
      exact remaining_nonneg_of_mem_enrichLoad _ _ a ha r hr
  | setBudget st entered env hprev ih =>
      intro bd hbd a ha r hr
      by_cases hg : entered ≤ 0
      · rw [show (handleSetBudget st entered env).state = st by
            simp [handleSetBudget, hg]] at hbd
        exact ih bd hbd a ha r hr
      · rcases hset : env.setBudgetResp
            (finalBudgetAmount st.budgetMode st.budgetData entered)
          with e | u
        · rw [show (handleSetBudget st entered env).state = st by
              simp [handleSetBudget, hg, hset]] at hbd
          exact ih bd hbd a ha r hr
        · rcases hdist : env.distributeResp
              (finalBudgetAmount st.budgetMode st.budgetData entered)
            with e | result
          · rw [show (handleSetBudget st entered env).state = st by
                simp [handleSetBudget, hg, hset, hdist]] at hbd
            exact ih bd hbd a ha r hr
          · rcases hstats : env.statsResp with e | currentStats
            · rw [show (handleSetBudget st entered env).state = st by
                  simp [handleSetBudget, hg, hset, hdist, hstats]] at hbd
              exact ih bd hbd a ha r hr
            · rw [show (handleSetBudget st entered env).state.budgetData =
                  some ⟨finalBudgetAmount st.budgetMode st.budgetData entered,
                    result.period,
                    enrichSet result.allocations currentStats.by_category⟩ by
                  simp [handleSetBudget, hg, hset, hdist, hstats]] at hbd
              rw [Option.some.injEq] at hbd
              subst hbd
              exact remaining_nonneg_of_mem_enrichSet _ _ a ha r hr

/-- Witness for C9: a state reached by one successful load has an
allocation with nonnegative remaining. -/
theorem reachable_remaining_nonneg_witness :
    (⟨"Food", 100, 25, "r", some 30, some 70, some Priority.high⟩ :
        CategoryAllocation) ∈
      (loadBudgetStore ⟨100, "m", [⟨"Food", 100, 25, "r", none, none, none⟩]⟩
        ⟨0, 0, 0, 0, 0, [("Food", 30)]⟩).allocations ∧
    (0 : ℚ) ≤ 70 := by
  have hmem :
      (⟨"Food", 100, 25, "r", some 30, some 70, some Priority.high⟩ :
          CategoryAllocation) ∈
        (loadBudgetStore
          ⟨100, "m", [⟨"Food", 100, 25, "r", none, none, none⟩]⟩
          ⟨0, 0, 0, 0, 0, [("Food", 30)]⟩).allocations := by
    norm_num [loadBudgetStore, enrichLoad, categorySpent, priorityFor,
      List.lookup]
  refine ⟨hmem, ?_⟩
  exact reachable_remaining_nonneg _
    (ReachableBudgetData.load none
      ⟨100, "m", [⟨"Food", 100, 25, "r", none, none, none⟩]⟩
      ⟨0, 0, 0, 0, 0, [("Food", 30)]⟩ ReachableBudgetData.init)
    (loadBudgetStore ⟨100, "m", [⟨"Food", 100, 25, "r", none, none, none⟩]⟩
      ⟨0, 0, 0, 0, 0, [("Food", 30)]⟩) rfl
    ⟨"Food", 100, 25, "r", some 30, some 70, some Priority.high⟩ hmem
    70 rfl

end ExpenseTracker

namespace ExpenseTracker

/-- The `ValidationResult` interface of the validation utilities. -/
structure ValidationResult where
  isValid : Bool
  error : Option String
deriving DecidableEq, Repr

/-- The `validatePassword` function of the validation utilities: blank passwords are
required, then at least 8 characters, at least one letter (regex
`[a-zA-Z]`) and at least one number (regex `\d`) are checked in order. -/
def validatePassword (password : String) : ValidationResult :=
  if password = "" ∨ password.trim = "" then
    ⟨false, some "Password is required"⟩
  else if password.length < 8 then
    ⟨false, some "Password must be at least 8 characters"⟩
  else if !password.any Char.isAlpha then
    ⟨false, some "Password must contain at least one letter"⟩
  else if !password.any Char.isDigit then
    ⟨false, some "Password must contain at least one number"⟩
  else
    ⟨true, none⟩

/-- Claim C10: the function `validatePassword` accepts exactly the non-blank strings of
length at least 8 containing an ASCII letter and a decimal digit, and on
rejection reports a non-empty error message. -/
theorem validatePassword_spec (password : String) :
    ((validatePassword password).isValid = true ↔
      (password.trim ≠ "" ∧ 8 ≤ password.length ∧
        password.any Char.isAlpha = true ∧
        password.any Char.isDigit = true)) ∧
    ((validatePassword password).isValid = false →
      ∃ e, (validatePassword password).error = some e ∧ e ≠ "") := by
  unfold validatePassword
  split_ifs with h1 h2 h3 h4
  · refine ⟨?_, fun _ => ⟨"Password is required", rfl, by decide⟩⟩
    constructor
    · intro hc
      cases hc
    · rintro ⟨ht, hlen, -⟩
      rcases h1 with rfl | h
      · exact absurd hlen (by decide)
      · exact ht h
  · exact ⟨by simp [not_le.mpr h2],
      fun _ => ⟨"Password must be at least 8 characters", rfl, by decide⟩⟩
  · simp only [Bool.not_eq_true'] at h3
    exact ⟨by simp [h3],
      fun _ => ⟨"Password must contain at least one letter", rfl, by decide⟩⟩
  · simp only [Bool.not_eq_true'] at h4
    exact ⟨by simp [h4],
      fun _ => ⟨"Password must contain at least one number", rfl, by decide⟩⟩
  · push_neg at h1
    simp at h3 h4
    refine ⟨by simp [h1.2, not_lt.mp h2, h3, h4], ?_⟩
    intro hc
    cases hc

end ExpenseTracker
